import Mathlib

/-!
Verification of the pharmacovigilance adverse-event processing core.

Shallow embedding of:
- `app/services/escalation_engine.py` (keyword scorer, risk banding, escalation),
- `app/services/classifier.py` (rule-based serious override, `predict_single`),
- `app/database/db.py` + `app/services/audit_logger.py` (audit schema, `log_processing`,
  `get_audit_by_report_id`),
- `app/services/vector_service.py` + `audit_logger.py` (similarity search post-processing).

Python `str` is modelled as `List Char` (`Str`); Python floats as `ℚ`.
-/

/-- Python strings are modelled as lists of characters. -/
abbrev Str := List Char

/-- Boolean test that `needle` is a prefix of `hay` (helper for Python substring
containment). -/
def isPrefixB : Str → Str → Bool
  | [], _ => true
  | _ :: _, [] => false
  | a :: as, b :: bs => a == b && isPrefixB as bs

/-- Python `needle in hay` for strings: `needle` occurs as a contiguous substring of
`hay` (the empty needle always occurs). -/
def hasSubstr (hay needle : Str) : Bool :=
  match hay with
  | [] => isPrefixB needle []
  | _ :: t => isPrefixB needle hay || hasSubstr t needle

/-- Python `str.lower()` on the (ASCII) texts the system handles: characterwise
lowercasing. -/
def toLowerText (s : Str) : Str := s.map Char.toLower

namespace EscalationEngine

/-- Regulatory seriousness keywords with integer weights, transcribed from the
`SERIOUS_KEYWORDS` dict of `escalation_engine.py` in literal (= dict iteration) order. -/
def SERIOUS_KEYWORDS : List (Str × ℕ) :=
  [("death".data, 10), ("died".data, 10), ("fatal".data, 10),
   ("life-threatening".data, 9), ("life threatening".data, 9),
   ("hospitalization".data, 8), ("hospitalisation".data, 8),
   ("hospitalized".data, 8), ("hospitalised".data, 8),
   ("inpatient".data, 7), ("disability".data, 8), ("incapacity".data, 8),
   ("congenital anomaly".data, 8), ("birth defect".data, 8),
   ("cancer".data, 7), ("overdose".data, 7), ("suicide".data, 9),
   ("suicidal".data, 8), ("cardiac arrest".data, 9),
   ("respiratory failure".data, 9), ("coma".data, 9), ("seizure".data, 7),
   ("anaphylaxis".data, 8), ("anaphylactic".data, 8), ("stroke".data, 8),
   ("myocardial infarction".data, 8), ("heart attack".data, 8),
   ("renal failure".data, 8), ("liver failure".data, 8),
   ("hepatic failure".data, 8), ("sepsis".data, 8), ("shock".data, 7),
   ("transplant".data, 7), ("surgery required".data, 7),
   ("surgical intervention".data, 7), ("icu".data, 8),
   ("intensive care".data, 8), ("ventilator".data, 8),
   ("intubation".data, 8), ("resuscitation".data, 9)]

/-- `ESCALATION_THRESHOLD = 0.6` from `escalation_engine.py`. -/
def ESCALATION_THRESHOLD : ℚ := 0.6

/-- `KEYWORD_WEIGHT = 0.3` from `escalation_engine.py`. -/
def KEYWORD_WEIGHT : ℚ := 0.3

/-- Result of the escalation decision (`EscalationResult` dataclass). -/
structure EscalationResult where
  should_escalate : Bool
  final_score : ℚ
  ml_probability : ℚ
  keyword_score : ℚ
  triggered_keywords : List Str
  explanation : String
  risk_level : String
deriving Repr, DecidableEq

/-- One iteration of the `for keyword, score in SERIOUS_KEYWORDS.items()` loop of
`calculate_keyword_score`: on a match, append the keyword to `triggered` and take the
max of the running `max_score`. -/
def kwStep (text_lower : Str) (acc : List Str × ℕ) (kw : Str × ℕ) : List Str × ℕ :=
  if hasSubstr text_lower kw.1 then (acc.1 ++ [kw.1], max acc.2 kw.2) else acc

/-- `calculate_keyword_score(text)`: lowercase the text, take the max weight over all
keywords occurring as substrings, normalize to `[0,1]` by dividing by 10 (0 when no
keyword triggers), and return the triggered keywords in table order. -/
def calculate_keyword_score (text : Str) : ℚ × List Str :=
  let text_lower := toLowerText text
  let r := SERIOUS_KEYWORDS.foldl (kwStep text_lower) ([], 0)
  let normalized_score : ℚ := if 0 < r.2 then (r.2 : ℚ) / 10 else 0
  (normalized_score, r.1)

/-- `determine_risk_level(score)`: CRITICAL at `>= 0.85`, HIGH at `>= 0.7`, MEDIUM at
`>= 0.5`, else LOW. -/
def determine_risk_level (score : ℚ) : String :=
  if (0.85 : ℚ) ≤ score then "CRITICAL"
  else if (0.7 : ℚ) ≤ score then "HIGH"
  else if (0.5 : ℚ) ≤ score then "MEDIUM"
  else "LOW"

/-- ML classifier output dictionary as consumed by the escalation engine and the audit
logger: each key may be absent (`dict.get` defaults apply at the use sites). -/
structure MLPrediction where
  prediction : Option String := none
  serious_probability : Option ℚ := none
  non_serious_probability : Option ℚ := none
  confidence : Option ℚ := none
deriving Repr, DecidableEq

/-- Extracted-entity dictionary `{drug, symptoms}`; the symptom value is typed as a
list, which is exactly the case the source's `isinstance(symptoms, list)` check keeps. -/
structure Entities where
  drug : Option String := none
  symptoms : Option (List Str) := none
deriving Repr, DecidableEq

/-- The combined text built by `evaluate_escalation`:
`f"{drugname} {adverse_event}"`, extended by `" " + " ".join(symptoms)` when the
entities dict is truthy (a `none` argument covers both `None` and the falsy empty
dict). A missing `symptoms` key defaults to the empty list, whose join is empty. -/
def combinedText (drugname adverse_event : Str) (entities : Option Entities) : Str :=
  let base := drugname ++ ' ' :: adverse_event
  match entities with
  | none => base
  | some e => base ++ ' ' :: List.intercalate [' '] (e.symptoms.getD [])

/-- `generate_explanation` percentage rendering (`:.1%`): one decimal digit of the
percentage value. -/
def formatPercent (q : ℚ) : String :=
  let n : ℤ := round (q * 1000)
  toString (n / 10) ++ "." ++ toString (n % 10) ++ "%"

/-- `generate_explanation(result)`: fixed template interpolating the verdict, risk
level, ML probability, triggered keywords, keyword score, final score, and an action
line that depends on whether keywords triggered. -/
def generate_explanation (result : EscalationResult) : String :=
  let parts₀ : List String :=
    if result.should_escalate then
      ["⚠️ ESCALATION REQUIRED - Risk Level: " ++ result.risk_level]
    else
      ["✓ No escalation needed - Risk Level: " ++ result.risk_level]
  let parts₁ := parts₀ ++ ["\nReasoning:",
    "• ML Classification Probability (Serious): " ++ formatPercent result.ml_probability]
  let parts₂ :=
    if result.triggered_keywords ≠ [] then
      parts₁ ++ ["• Regulatory Keywords Detected: " ++
          String.intercalate ", " (result.triggered_keywords.map String.mk),
        "• Keyword Severity Score: " ++ formatPercent result.keyword_score]
    else
      parts₁ ++ ["• No regulatory keywords detected"]
  let parts₃ := parts₂ ++ ["\nFinal Combined Score: " ++ formatPercent result.final_score]
  let parts₄ :=
    if result.should_escalate then
      if result.triggered_keywords ≠ [] then
        parts₃ ++ ["\n📋 Action: Report contains serious safety signal(s). Immediate review required."]
      else
        parts₃ ++ ["\n📋 Action: ML model indicates elevated seriousness probability. Manual review recommended."]
    else parts₃
  String.intercalate "\n" parts₄

/-- `evaluate_escalation(ml_prediction, drugname, adverse_event, entities)`:
read the ML probability with neutral default 0.5, score the combined text, blend
(with critical-keyword override at `keyword_score >= 0.8`), decide escalation, band
the risk level, and attach the generated explanation. -/
def evaluate_escalation (ml_prediction : MLPrediction) (drugname : Str)
    (adverse_event : Str) (entities : Option Entities := none) : EscalationResult :=
  let ml_prob := ml_prediction.serious_probability.getD 0.5
  let combined_text := combinedText drugname adverse_event entities
  let ks := calculate_keyword_score combined_text
  let keyword_score := ks.1
  let triggered_keywords := ks.2
  let final_score :=
    if (0.8 : ℚ) ≤ keyword_score then max ml_prob keyword_score
    else (1 - KEYWORD_WEIGHT) * ml_prob + KEYWORD_WEIGHT * keyword_score
  let should_escalate :=
    decide (ESCALATION_THRESHOLD ≤ final_score) || decide ((0.8 : ℚ) ≤ keyword_score)
  let risk_level := determine_risk_level final_score
  let result : EscalationResult :=
    { should_escalate := should_escalate
      final_score := final_score
      ml_probability := ml_prob
      keyword_score := keyword_score
      triggered_keywords := triggered_keywords
      explanation := ""
      risk_level := risk_level }
  { result with explanation := generate_explanation result }

end EscalationEngine

namespace Classifier

/-- The classifier's own rule-based override keyword list (`SERIOUS_KEYWORDS` in
`classifier.py`), transcribed in literal order. -/
def SERIOUS_KEYWORDS : List Str :=
  ["hospital".data, "hospitalized".data, "hospitalised".data, "admitted".data,
   "admission".data,
   "icu".data, "intensive care".data, "critical care".data, "ccu".data,
   "death".data, "died".data, "fatal".data, "expired".data, "mortality".data,
   "life threatening".data, "life-threatening".data,
   "cardiac arrest".data, "respiratory arrest".data,
   "shock".data, "septic shock".data, "anaphylaxis".data,
   "gastrointestinal bleeding".data, "gi bleeding".data, "gi bleed".data,
   "melena".data, "black tarry stools".data,
   "hematemesis".data, "vomiting blood".data,
   "hemorrhage".data, "haemorrhage".data, "bleeding requiring transfusion".data,
   "blood transfusion".data, "transfusion".data,
   "hematuria".data, "blood in urine".data,
   "hemoptysis".data, "coughing up blood".data,
   "rectal bleeding".data,
   "intracranial hemorrhage".data, "intracranial haemorrhage".data,
   "brain bleed".data, "cerebral hemorrhage".data,
   "stroke".data, "cva".data, "subarachnoid hemorrhage".data,
   "myocardial infarction".data, "heart attack".data,
   "ventricular fibrillation".data, "ventricular tachycardia".data,
   "cardiac arrhythmia".data, "asystole".data,
   "acute renal failure".data, "kidney failure".data,
   "acute liver failure".data, "hepatic failure".data,
   "respiratory failure".data, "ventilator".data, "intubated".data,
   "anaphylactic shock".data, "stevens-johnson syndrome".data, "sjs".data,
   "toxic epidermal necrolysis".data, "ten".data,
   "congenital anomaly".data, "birth defect".data, "teratogenic".data,
   "permanent disability".data, "paralysis".data, "blindness".data, "coma".data,
   "emergency surgery".data, "urgent surgery".data,
   "intubation".data, "mechanical ventilation".data,
   "severe anemia".data, "hemoglobin drop".data,
   "coagulopathy".data, "overdose".data, "toxicity".data]

/-- `SERIOUS_THRESHOLD = 0.30` from `classifier.py`. -/
def SERIOUS_THRESHOLD : ℚ := 0.30

/-- `rule_based_serious_override(text)`: lowercase the text and test whether any
override keyword occurs as a substring. -/
def rule_based_serious_override (text : Str) : Bool :=
  let t := toLowerText text
  SERIOUS_KEYWORDS.any (fun k => hasSubstr t k)

/-- Prediction dictionary returned by `predict_single`. -/
structure PredDict where
  prediction : String
  serious_probability : ℚ
  non_serious_probability : ℚ
  confidence : ℚ
  reason : String
deriving Repr, DecidableEq

/-- Abstract view of the loaded sklearn vectorizer + model pair (external libraries):
for a given text it yields the probability of the `Serious` class and the maximal
class probability (confidence). -/
structure MLModel where
  serious_prob : Str → ℚ
  max_prob : Str → ℚ

/-- Classifier process state: `model = none` models the state in which the model is
not loaded and `load_model()` fails (missing `model.pkl`). -/
structure ClassifierState where
  model : Option MLModel

/-- `predict_single(text)`: raise `ClassifierNotLoadedError` when no model can be
loaded; otherwise apply the rule-based override first and fall back to the
threshold-based ML decision. -/
def predict_single (st : ClassifierState) (text : Str) : Except String PredDict :=
  match st.model with
  | none => .error "Classifier model not loaded. Run train_classifier.py first."
  | some m =>
    if rule_based_serious_override text then
      .ok { prediction := "Serious"
            serious_probability := 1
            non_serious_probability := 0
            confidence := 1
            reason := "Rule-based override: high-risk keyword detected" }
    else
      let serious_prob := m.serious_prob text
      .ok { prediction :=
              if SERIOUS_THRESHOLD ≤ serious_prob then "Serious" else "Non-Serious"
            serious_probability := serious_prob
            non_serious_probability := 1 - serious_prob
            confidence := m.max_prob text
            reason := "ML classifier" }

end Classifier

/-- `json.dumps` escaping of one string element (quote and backslash escapes; the
texts handled by the system contain neither). -/
def jsonEscape (s : String) : String :=
  String.mk (s.data.foldr
    (fun c acc =>
      if c = '\\' then '\\' :: '\\' :: acc
      else if c = '"' then '\\' :: '"' :: acc
      else c :: acc) [])

/-- `json.dumps` of a list of strings, with Python's default `", "` separator. -/
def jsonDumpsList (xs : List String) : String :=
  "[" ++ String.intercalate ", " (xs.map (fun s => "\"" ++ jsonEscape s ++ "\"")) ++ "]"

namespace Db

/-- One row of the `audit_log` table, with the columns of the schema created by
`init_database` (minus the autoincrement `id`). `timestamp` is an `Option` because
the `INSERT` in `log_processing` does not supply it, leaving it SQL `NULL`. -/
structure AuditRow where
  report_id : String
  timestamp : Option String
  drugname : String
  adverse_event : String
  ml_prediction : String
  ml_probability : ℚ
  extracted_drug : String
  extracted_symptoms : String
  escalation_decision : String
  risk_level : String
  final_score : ℚ
  triggered_keywords : String
  explanation : String
  processing_time_ms : ℚ
deriving Repr, DecidableEq

/-- The `audit_log` table: its rows in rowid (insertion) order, plus the schema-level
`NOT NULL` constraint on the `timestamp` column as declared by the `CREATE TABLE`
that produced the table (`CREATE TABLE IF NOT EXISTS` keeps a pre-existing table's
schema, so the flag is part of the state). -/
structure AuditTable where
  timestampNotNull : Bool
  rows : List AuditRow
deriving Repr, DecidableEq

/-- `init_database()`: `CREATE TABLE IF NOT EXISTS audit_log (... timestamp TEXT NOT
NULL ...)` — creates the table with the `NOT NULL` timestamp constraint when absent,
and leaves an existing table untouched. -/
def init_database (db : Option AuditTable) : AuditTable :=
  match db with
  | some t => t
  | none => { timestampNotNull := true, rows := [] }

/-- SQLite semantics of the `INSERT INTO audit_log` issued by `log_processing`: a row
whose `timestamp` is `NULL` violates the schema's `NOT NULL` constraint and raises
`IntegrityError`; otherwise the row is appended. -/
def insertAuditLog (t : AuditTable) (r : AuditRow) : Except String AuditTable :=
  if t.timestampNotNull && r.timestamp.isNone then
    .error "NOT NULL constraint failed: audit_log.timestamp"
  else
    .ok { t with rows := t.rows ++ [r] }

end Db

namespace AuditLogger

open EscalationEngine

/-- The row assembled by the parameter tuple of `log_processing`'s `INSERT`: the 13
supplied columns, with the `dict.get` defaults of the source; the omitted `timestamp`
column is left `NULL`. -/
def auditRowOf (report_id drugname adverse_event : String)
    (ml_prediction : MLPrediction) (entities : Entities)
    (escalation_result : EscalationResult) (processing_time_ms : ℚ) : Db.AuditRow :=
  { report_id := report_id
    timestamp := none
    drugname := drugname
    adverse_event := adverse_event
    ml_prediction := ml_prediction.prediction.getD ""
    ml_probability := ml_prediction.serious_probability.getD 0
    extracted_drug := entities.drug.getD ""
    extracted_symptoms := jsonDumpsList ((entities.symptoms.getD []).map String.mk)
    escalation_decision :=
      if escalation_result.should_escalate then "ESCALATE" else "NO_ESCALATE"
    risk_level := escalation_result.risk_level
    final_score := escalation_result.final_score
    triggered_keywords :=
      jsonDumpsList (escalation_result.triggered_keywords.map String.mk)
    explanation := escalation_result.explanation
    processing_time_ms := processing_time_ms }

/-- `log_processing(...)`: insert the audit row (any SQL exception is caught and
yields `False`); on success attempt the vector indexing, whose outcome — success,
`False`, or a raised exception (`vectorOutcome` models the external
`index_audit_event` call) — is swallowed by the inner `try/except`; return `True`.
The result is paired with the post-state of the audit table. -/
def log_processing (t : Db.AuditTable) (report_id drugname adverse_event : String)
    (ml_prediction : MLPrediction) (entities : Entities)
    (escalation_result : EscalationResult) (processing_time_ms : ℚ)
    (vectorOutcome : Except String Bool) : Bool × Db.AuditTable :=
  match Db.insertAuditLog t
      (auditRowOf report_id drugname adverse_event ml_prediction entities
        escalation_result processing_time_ms) with
  | .ok t2 =>
      match vectorOutcome with
      | .ok _ => (true, t2)
      | .error _ => (true, t2)
  | .error _ => (false, t)

/-- `get_audit_by_report_id(report_id)`: `SELECT * FROM audit_log WHERE report_id = ?`
with `fetchone()` — the first stored row with that report id, or `None`. -/
def get_audit_by_report_id (t : Db.AuditTable) (report_id : String) :
    Option Db.AuditRow :=
  t.rows.find? (fun r => r.report_id == report_id)

end AuditLogger

namespace VectorService

/-- One ranked hit as delivered by the external ChromaDB `collection.query` call (id,
decoded metadata, distance, stored document), in most-similar-first order. The
embedding backend and ANN search live in external libraries, so the hit list is the
model's interface to them. -/
structure QueryHit where
  report_id : String
  drugname : String
  risk_level : String
  ml_probability : ℚ
  timestamp : String
  symptoms : List String
  distance : ℚ
  document : String
deriving Repr, DecidableEq

/-- One element of the list returned by `search_similar_events`. -/
structure SimilarEvent where
  report_id : String
  drugname : String
  risk_level : String
  timestamp : String
  ml_probability : ℚ
  all_symptoms : List String
  matched_symptoms : List String
  vector_distance : ℚ
  canonical_text : String
deriving Repr, DecidableEq

/-- Python `str.lower()` on a `String` value. -/
def lowerStr (s : String) : String := String.mk (toLowerText s.data)

/-- The dict built for one non-skipped hit inside the `search_similar_events` loop,
including the case-insensitive matched-symptom intersection. -/
def mkSimilarEvent (h : QueryHit) (query_symptoms : List String) : SimilarEvent :=
  { report_id := h.report_id
    drugname := h.drugname
    risk_level := h.risk_level
    timestamp := h.timestamp
    ml_probability := h.ml_probability
    all_symptoms := h.symptoms
    matched_symptoms :=
      h.symptoms.filter (fun s => (query_symptoms.map lowerStr).contains (lowerStr s))
    vector_distance := h.distance
    canonical_text := h.document }

/-- The result-assembly loop of `search_similar_events`: skip a hit when
`current_report_id` is truthy (a non-`None`, non-empty string) and equals the hit's
id; otherwise append the built event and stop once `top_k` results are collected
(Python checks `len >= top_k` after appending). -/
def searchLoop (hits : List QueryHit) (query_symptoms : List String)
    (current_report_id : Option String) (top_k : ℕ)
    (acc : List SimilarEvent) : List SimilarEvent :=
  match hits with
  | [] => acc
  | h :: rest =>
    if (current_report_id.getD "" ≠ "") && h.report_id == current_report_id.getD ""
    then searchLoop rest query_symptoms current_report_id top_k acc
    else
      if top_k ≤ (acc ++ [mkSimilarEvent h query_symptoms]).length then
        acc ++ [mkSimilarEvent h query_symptoms]
      else
        searchLoop rest query_symptoms current_report_id top_k
          (acc ++ [mkSimilarEvent h query_symptoms])

/-- `search_similar_events(...)` downstream of the external backend call: a raised
backend exception is caught and yields `[]`; otherwise the ranked hits are filtered
and truncated by the loop. -/
def search_similar_events (backendResult : Except String (List QueryHit))
    (query_symptoms : List String) (current_report_id : Option String)
    (top_k : ℕ) : List SimilarEvent :=
  match backendResult with
  | .error _ => []
  | .ok hits => searchLoop hits query_symptoms current_report_id top_k []

/-- One element of the list returned by `get_similar_serious_events_vector`. -/
structure SimilarEventOut where
  report_id : String
  drugname : String
  adverse_event : String
  timestamp : String
  risk_level : String
  ml_probability : ℚ
  final_score : Option ℚ
  matched_symptoms : List String
deriving Repr, DecidableEq

/-- `get_similar_serious_events_vector(...)` (in `audit_logger.py`): call the vector
search with `current_report_id` and `top_k = limit`, and re-shape each row (the
`adverse_event` field carries the stored canonical text, `final_score` is `None`).
A raised exception yields `[]`; the `search` model already returns rather than
raises. -/
def get_similar_serious_events_vector (backendResult : Except String (List QueryHit))
    (current_symptoms : List String) (current_report_id : String)
    (limit : ℕ) : List SimilarEventOut :=
  (search_similar_events backendResult current_symptoms (some current_report_id)
    limit).map
    (fun row =>
      { report_id := row.report_id
        drugname := row.drugname
        adverse_event := row.canonical_text
        timestamp := row.timestamp
        risk_level := row.risk_level
        ml_probability := row.ml_probability
        final_score := none
        matched_symptoms := row.matched_symptoms })

end VectorService

/-! ### Helper lemmas about substring containment and the keyword fold -/

theorem isPrefixB_append (n h u : Str) (hp : isPrefixB n h = true) :
    isPrefixB n (h ++ u) = true := by
  induction n generalizing h with
  | nil => simp [isPrefixB]
  | cons a as ih =>
    cases h with
    | nil => simp [isPrefixB] at hp
    | cons b bs =>
      simp only [isPrefixB, Bool.and_eq_true] at hp ⊢
      exact ⟨hp.1, ih bs hp.2⟩

theorem hasSubstr_nil_needle (u : Str) : hasSubstr u [] = true := by
  cases u <;> simp [hasSubstr, isPrefixB]

theorem hasSubstr_append_right (h u n : Str) (hs : hasSubstr h n = true) :
    hasSubstr (h ++ u) n = true := by
  induction h with
  | nil =>
    simp only [hasSubstr] at hs
    cases n with
    | nil => exact hasSubstr_nil_needle u
    | cons a as => simp [isPrefixB] at hs
  | cons c t ih =>
    simp only [hasSubstr, Bool.or_eq_true] at hs ⊢
    rcases hs with hp | hrec
    · exact Or.inl (isPrefixB_append n (c :: t) u hp)
    · exact Or.inr (ih hrec)

namespace EscalationEngine

theorem kwStep_acc_le (l : Str) (kws : List (Str × ℕ)) (acc : List Str × ℕ) :
    acc.2 ≤ (kws.foldl (kwStep l) acc).2 := by
  induction kws generalizing acc with
  | nil => exact le_refl _
  | cons kw rest ih =>
    simp only [List.foldl_cons]
    refine le_trans ?_ (ih (kwStep l acc kw))
    unfold kwStep
    split
    · exact le_max_left _ _
    · exact le_refl _

theorem kwStep_mem_le (l : Str) (kws : List (Str × ℕ)) (acc : List Str × ℕ)
    (kw : Str × ℕ) (hmem : kw ∈ kws) (hocc : hasSubstr l kw.1 = true) :
    kw.2 ≤ (kws.foldl (kwStep l) acc).2 := by
  induction kws generalizing acc with
  | nil => cases hmem
  | cons k rest ih =>
    simp only [List.foldl_cons]
    rcases List.mem_cons.mp hmem with heq | htail
    · subst heq
      refine le_trans ?_ (kwStep_acc_le l rest (kwStep l acc kw))
      unfold kwStep
      rw [hocc]
      simp only [if_true]
      exact le_max_right _ _
    · exact ih (kwStep l acc k) htail

theorem kwStep_fold_mono (l1 l2 : Str) (kws : List (Str × ℕ))
    (acc1 acc2 : List Str × ℕ) (hacc : acc1.2 ≤ acc2.2)
    (himp : ∀ kw ∈ kws, hasSubstr l1 kw.1 = true → hasSubstr l2 kw.1 = true) :
    (kws.foldl (kwStep l1) acc1).2 ≤ (kws.foldl (kwStep l2) acc2).2 := by
  induction kws generalizing acc1 acc2 with
  | nil => exact hacc
  | cons kw rest ih =>
    simp only [List.foldl_cons]
    refine ih (kwStep l1 acc1 kw) (kwStep l2 acc2 kw) ?_ ?_
    · unfold kwStep
      by_cases h1 : hasSubstr l1 kw.1 = true
      · rw [h1, himp kw (List.mem_cons_self kw rest) h1]
        simpa using max_le_max hacc (le_refl kw.2)
      · rw [Bool.not_eq_true] at h1
        rw [h1]
        simp only [Bool.false_eq_true, if_false]
        split
        · exact le_trans hacc (le_max_left _ _)
        · exact hacc
    · intro k hk
      exact himp k (List.mem_cons_of_mem kw hk)

theorem kwStep_fold_no_match (l : Str) (kws : List (Str × ℕ)) (acc : List Str × ℕ)
    (hnone : ∀ kw ∈ kws, hasSubstr l kw.1 = false) :
    kws.foldl (kwStep l) acc = acc := by
  induction kws generalizing acc with
  | nil => rfl
  | cons kw rest ih =>
    simp only [List.foldl_cons]
    have hk : hasSubstr l kw.1 = false := hnone kw (List.mem_cons_self kw rest)
    have hstep : kwStep l acc kw = acc := by
      unfold kwStep
      rw [hk]
      simp
    rw [hstep]
    exact ih acc (fun k hkk => hnone k (List.mem_cons_of_mem kw hkk))

theorem keyword_score_nonneg (t : Str) : 0 ≤ (calculate_keyword_score t).1 := by
  unfold calculate_keyword_score
  simp only
  split
  · positivity
  · exact le_refl 0

theorem keyword_score_ge (text : Str) (kw : Str × ℕ) (hmem : kw ∈ SERIOUS_KEYWORDS)
    (hocc : hasSubstr (toLowerText text) kw.1 = true) (hpos : 0 < kw.2) :
    (kw.2 : ℚ) / 10 ≤ (calculate_keyword_score text).1 := by
  have hle : kw.2 ≤ (SERIOUS_KEYWORDS.foldl (kwStep (toLowerText text)) ([], 0)).2 :=
    kwStep_mem_le _ _ _ kw hmem hocc
  have hfpos : 0 < (SERIOUS_KEYWORDS.foldl (kwStep (toLowerText text)) ([], 0)).2 :=
    lt_of_lt_of_le hpos hle
  unfold calculate_keyword_score
  simp only
  rw [if_pos hfpos]
  gcongr

theorem keyword_score_eq_zero (text : Str)
    (hnone : ∀ kw ∈ SERIOUS_KEYWORDS, hasSubstr (toLowerText text) kw.1 = false) :
    calculate_keyword_score text = (0, []) := by
  unfold calculate_keyword_score
  simp only
  rw [kwStep_fold_no_match _ _ _ hnone]
  simp

/-! ### Claim theorems about the escalation engine -/

/-- C7: appending additional text never lowers the keyword score:
for every text `t` and suffix `u`,
`calculate_keyword_score(t ++ u).score >= calculate_keyword_score(t).score`. -/
theorem calculate_keyword_score_monotone_append (t u : Str) :
    (calculate_keyword_score t).1 ≤ (calculate_keyword_score (t ++ u)).1 := by
  have hmono : (SERIOUS_KEYWORDS.foldl (kwStep (toLowerText t)) ([], 0)).2
      ≤ (SERIOUS_KEYWORDS.foldl (kwStep (toLowerText (t ++ u))) ([], 0)).2 := by
    refine kwStep_fold_mono _ _ _ _ _ (le_refl 0) ?_
    intro kw _ hocc
    have hsplit : toLowerText (t ++ u) = toLowerText t ++ toLowerText u := by
      unfold toLowerText
      exact List.map_append _ _ _
    rw [hsplit]
    exact hasSubstr_append_right _ _ _ hocc
  unfold calculate_keyword_score
  simp only
  rcases Nat.eq_zero_or_pos (SERIOUS_KEYWORDS.foldl (kwStep (toLowerText t)) ([], 0)).2
    with h1 | h1
  · rw [h1]
    simp only [lt_irrefl, if_false]
    split
    · positivity
    · exact le_refl 0
  · have h2 : 0 < (SERIOUS_KEYWORDS.foldl (kwStep (toLowerText (t ++ u))) ([], 0)).2 :=
      lt_of_lt_of_le h1 hmono
    rw [if_pos h1, if_pos h2]
    gcongr

/-- C3: any text containing a severity-table keyword of weight at least 8 yields a
keyword score of at least 0.8 and forces `should_escalate = True`, even with an ML
serious-probability of 0. -/
theorem evaluate_escalation_critical_keyword (ml : MLPrediction) (d a : Str)
    (e : Option Entities) (kw : Str × ℕ)
    (hmem : kw ∈ SERIOUS_KEYWORDS) (hw : 8 ≤ kw.2)
    (hocc : hasSubstr (toLowerText (combinedText d a e)) kw.1 = true)
    (hml : ml.serious_probability = some 0) :
    (0.8 : ℚ) ≤ (evaluate_escalation ml d a e).keyword_score ∧
    (evaluate_escalation ml d a e).should_escalate = true := by
  have hks : (0.8 : ℚ) ≤ (calculate_keyword_score (combinedText d a e)).1 := by
    refine le_trans ?_ (keyword_score_ge _ kw hmem hocc (by omega))
    have : (8 : ℚ) ≤ (kw.2 : ℚ) := by exact_mod_cast hw
    rw [show (0.8 : ℚ) = 8 / 10 by norm_num]
    gcongr
  constructor
  · simpa only [evaluate_escalation] using hks
  · simp [evaluate_escalation, hks]

/-- C2: with ML serious-probability 0.9 and a combined text in which no
severity-table keyword occurs, the result has `keyword_score = 0`,
`final_score = 0.63`, `risk_level = MEDIUM` and `should_escalate = True`. -/
theorem evaluate_escalation_scenario_b (ml : MLPrediction) (d a : Str)
    (e : Option Entities)
    (hml : ml.serious_probability = some (0.9 : ℚ))
    (hnone : ∀ kw ∈ SERIOUS_KEYWORDS,
      hasSubstr (toLowerText (combinedText d a e)) kw.1 = false) :
    (evaluate_escalation ml d a e).keyword_score = 0 ∧
    (evaluate_escalation ml d a e).final_score = 0.63 ∧
    (evaluate_escalation ml d a e).risk_level = "MEDIUM" ∧
    (evaluate_escalation ml d a e).should_escalate = true := by
  have hz := keyword_score_eq_zero _ hnone
  simp only [evaluate_escalation, hml, hz, Option.getD_some]
  norm_num [determine_risk_level, ESCALATION_THRESHOLD, KEYWORD_WEIGHT]

/-- C4: the risk-level banding is total and non-overlapping on `[0,1]`: a score maps
to LOW exactly below 0.5, to MEDIUM exactly on `[0.5, 0.7)`, to HIGH exactly on
`[0.7, 0.85)` and to CRITICAL exactly at and above 0.85. -/
theorem determine_risk_level_banding (s : ℚ) (h0 : 0 ≤ s) (h1 : s ≤ 1) :
    (determine_risk_level s = "LOW" ↔ s < 0.5) ∧
    (determine_risk_level s = "MEDIUM" ↔ (0.5 : ℚ) ≤ s ∧ s < 0.7) ∧
    (determine_risk_level s = "HIGH" ↔ (0.7 : ℚ) ≤ s ∧ s < 0.85) ∧
    (determine_risk_level s = "CRITICAL" ↔ (0.85 : ℚ) ≤ s) := by
  unfold determine_risk_level
  split_ifs with hc hh hm <;> refine ⟨?_, ?_, ?_, ?_⟩ <;> simp_all <;>
    first
      | linarith
      | (intro hx; linarith)

/-- C6: a missing `serious_probability` key makes `evaluate_escalation` use the
neutral default 0.5 (and, being a total function of its inputs, it never raises):
the result records ML probability 0.5 and agrees with the call in which 0.5 is
passed explicitly. -/
theorem evaluate_escalation_default_prob (ml : MLPrediction) (d a : Str)
    (e : Option Entities) (h : ml.serious_probability = none) :
    (evaluate_escalation ml d a e).ml_probability = 0.5 ∧
    evaluate_escalation ml d a e =
      evaluate_escalation { ml with serious_probability := some 0.5 } d a e := by
  constructor
  · simp [evaluate_escalation, h]
  · simp [evaluate_escalation, h]

/-- C10: the second disjunct of the escalation rule is redundant — for every input,
`should_escalate` equals the test `final_score >= 0.6` alone, because the override
branch already lifts `final_score` to at least `keyword_score >= 0.8`. -/
theorem should_escalate_iff_final_score (ml : MLPrediction) (d a : Str)
    (e : Option Entities) :
    (evaluate_escalation ml d a e).should_escalate
      = decide (ESCALATION_THRESHOLD ≤ (evaluate_escalation ml d a e).final_score) := by
  simp only [evaluate_escalation]
  by_cases hk : (0.8 : ℚ) ≤ (calculate_keyword_score (combinedText d a e)).1
  · have h1 : ESCALATION_THRESHOLD
        ≤ max (ml.serious_probability.getD 0.5)
            (calculate_keyword_score (combinedText d a e)).1 := by
      refine le_trans ?_ (le_max_right _ _)
      refine le_trans ?_ hk
      unfold ESCALATION_THRESHOLD
      norm_num
    simp [hk, h1]
  · simp [hk]

end EscalationEngine

/-! ### Claim theorems about the classifier override -/

namespace Classifier

/-- C9: any input text containing a keyword of the classifier's override list makes
`predict_single` bypass the ML model and return prediction "Serious" with
serious probability 1.0, non-serious probability 0.0 and confidence 1.0 (stated for
a loaded classifier, the state in which `predict_single` reaches a prediction at
all). -/
theorem predict_single_rule_override (m : MLModel) (text : Str) (kw : Str)
    (hmem : kw ∈ SERIOUS_KEYWORDS)
    (hocc : hasSubstr (toLowerText text) kw = true) :
    predict_single ⟨some m⟩ text =
      .ok { prediction := "Serious"
            serious_probability := 1
            non_serious_probability := 0
            confidence := 1
            reason := "Rule-based override: high-risk keyword detected" } := by
  have hov : rule_based_serious_override text = true := by
    unfold rule_based_serious_override
    simp only [List.any_eq_true]
    exact ⟨kw, hmem, hocc⟩
  simp [predict_single, hov]

end Classifier

/-! ### Claim theorems about the audit log -/

namespace AuditLogger

open EscalationEngine

/-- C1 (code bug): against the schema created by `init_database` — which declares
`timestamp TEXT NOT NULL` — the `INSERT` issued by `log_processing` omits the
`timestamp` column, so every insert violates the constraint: `log_processing`
always returns `False`, the table is unchanged, and `get_audit_by_report_id` finds
nothing. The audit append can therefore never succeed, contradicting the
append-then-get round-trip the specification states. -/
theorem log_processing_never_appends_on_init_schema
    (report_id drugname adverse_event : String) (ml : MLPrediction) (ent : Entities)
    (esc : EscalationResult) (ptm : ℚ) (vectorOutcome : Except String Bool) :
    log_processing (Db.init_database none) report_id drugname adverse_event ml ent
        esc ptm vectorOutcome = (false, Db.init_database none) ∧
    get_audit_by_report_id (Db.init_database none) report_id = none := by
  constructor
  · unfold log_processing Db.insertAuditLog Db.init_database auditRowOf
    simp
  · rfl

/-- C5: whenever the audit-database insert inside `log_processing` succeeds,
`log_processing` returns `True`, for every outcome of the vector indexing call —
including a raised backend exception: index failure never propagates. -/
theorem log_processing_true_of_insert_ok (t t2 : Db.AuditTable)
    (report_id drugname adverse_event : String) (ml : MLPrediction) (ent : Entities)
    (esc : EscalationResult) (ptm : ℚ) (vectorOutcome : Except String Bool)
    (h : Db.insertAuditLog t
      (auditRowOf report_id drugname adverse_event ml ent esc ptm) = .ok t2) :
    (log_processing t report_id drugname adverse_event ml ent esc ptm
      vectorOutcome).1 = true := by
  unfold log_processing
  rw [h]
  cases vectorOutcome <;> rfl

end AuditLogger

/-! ### Claim theorems about the similarity query -/

namespace VectorService

theorem searchLoop_excludes (qs : List String) (R : String) (k : ℕ) :
    ∀ (hits : List QueryHit) (acc : List SimilarEvent),
      (∀ h ∈ hits, h.report_id ≠ "") →
      (∀ ev ∈ acc, ev.report_id ≠ R) →
      ∀ ev ∈ searchLoop hits qs (some R) k acc, ev.report_id ≠ R := by
  intro hits
  induction hits with
  | nil =>
    intro acc _ hacc ev hev
    exact hacc ev hev
  | cons h rest ih =>
    intro acc hids hacc ev hev
    have hidh : h.report_id ≠ "" := hids h (List.mem_cons_self h rest)
    have hidrest : ∀ g ∈ rest, g.report_id ≠ "" :=
      fun g hg => hids g (List.mem_cons_of_mem h hg)
    unfold searchLoop at hev
    split at hev
    · exact ih acc hidrest hacc ev hev
    · rename_i hcond
      have hne : h.report_id ≠ R := by
        rcases Bool.and_eq_true_iff.not.mp hcond with hor
        by_cases hR : R = ""
        · subst hR
          exact hidh
        · intro hcontra
          apply hor
          constructor
          · simpa using hR
          · simpa [Option.getD] using hcontra
      have hacc2 : ∀ ev ∈ acc ++ [mkSimilarEvent h qs], ev.report_id ≠ R := by
        intro ev2 hev2
        rcases List.mem_append.mp hev2 with hin | hin
        · exact hacc ev2 hin
        · rcases List.mem_singleton.mp hin with rfl
          exact hne
      split at hev
      · exact hacc2 ev hev
      · exact ih _ hidrest hacc2 ev hev

/-- C8: a similarity query that excludes report id `R` never returns `R` among its
results, whatever ranked candidates the vector backend produces (backend ids are
non-empty, as ChromaDB enforces), even when `R` itself is among the candidates. -/
theorem get_similar_excludes_current_report
    (backendResult : Except String (List QueryHit)) (qs : List String)
    (R : String) (limit : ℕ)
    (hids : ∀ hres, backendResult = .ok hres → ∀ h ∈ hres, h.report_id ≠ "") :
    ∀ ev ∈ get_similar_serious_events_vector backendResult qs R limit,
      ev.report_id ≠ R := by
  intro ev hev
  unfold get_similar_serious_events_vector at hev
  rcases List.mem_map.mp hev with ⟨row, hrow, heq⟩
  have hrowid : row.report_id ≠ R := by
    cases hb : backendResult with
    | error e =>
      rw [hb] at hrow
      simp [search_similar_events] at hrow
    | ok hits =>
      rw [hb] at hrow
      exact searchLoop_excludes qs R limit hits [] (hids hits hb)
        (by intro ev2 hev2; cases hev2) row hrow
  rw [← heq]
  exact hrowid

end VectorService

/-! ### Witnesses: concrete instantiations of the hypothesised claim theorems -/

/-- C2 witness: drug "aspirin", event "mild headache" (no severity keyword occurs),
ML serious-probability 0.9. -/
theorem evaluate_escalation_scenario_b_witness :
    (EscalationEngine.evaluate_escalation { serious_probability := some 0.9 }
        "aspirin".data "mild headache".data none).keyword_score = 0 ∧
    (EscalationEngine.evaluate_escalation { serious_probability := some 0.9 }
        "aspirin".data "mild headache".data none).final_score = 0.63 ∧
    (EscalationEngine.evaluate_escalation { serious_probability := some 0.9 }
        "aspirin".data "mild headache".data none).risk_level = "MEDIUM" ∧
    (EscalationEngine.evaluate_escalation { serious_probability := some 0.9 }
        "aspirin".data "mild headache".data none).should_escalate = true :=
  EscalationEngine.evaluate_escalation_scenario_b _ _ _ _ rfl (by decide)

/-- C3 witness: event "hospitalization" (weight 8) with ML serious-probability 0. -/
theorem evaluate_escalation_critical_keyword_witness :
    (0.8 : ℚ) ≤ (EscalationEngine.evaluate_escalation { serious_probability := some 0 }
        "aspirin".data "hospitalization".data none).keyword_score ∧
    (EscalationEngine.evaluate_escalation { serious_probability := some 0 }
        "aspirin".data "hospitalization".data none).should_escalate = true :=
  EscalationEngine.evaluate_escalation_critical_keyword _ _ _ _
    ("hospitalization".data, 8) (by decide) (by decide) (by decide) rfl

/-- C4 witness: the banding at the concrete score 0.63. -/
theorem determine_risk_level_banding_witness :
    (EscalationEngine.determine_risk_level 0.63 = "LOW" ↔ (0.63 : ℚ) < 0.5) ∧
    (EscalationEngine.determine_risk_level 0.63 = "MEDIUM" ↔
      (0.5 : ℚ) ≤ 0.63 ∧ (0.63 : ℚ) < 0.7) ∧
    (EscalationEngine.determine_risk_level 0.63 = "HIGH" ↔
      (0.7 : ℚ) ≤ 0.63 ∧ (0.63 : ℚ) < 0.85) ∧
    (EscalationEngine.determine_risk_level 0.63 = "CRITICAL" ↔ (0.85 : ℚ) ≤ 0.63) :=
  EscalationEngine.determine_risk_level_banding 0.63
    (by with_unfolding_all decide) (by with_unfolding_all decide)

/-- C6 witness: a prediction dict without the `serious_probability` key. -/
theorem evaluate_escalation_default_prob_witness :
    (EscalationEngine.evaluate_escalation {} "ibuprofen".data "nausea".data
        none).ml_probability = 0.5 ∧
    EscalationEngine.evaluate_escalation {} "ibuprofen".data "nausea".data none =
      EscalationEngine.evaluate_escalation { serious_probability := some 0.5 }
        "ibuprofen".data "nausea".data none :=
  EscalationEngine.evaluate_escalation_default_prob {} _ _ _ rfl

/-- C5 witness: an audit table whose schema does not carry the `NOT NULL` timestamp
constraint accepts the insert, and `log_processing` returns `True` although the
vector indexing raises. -/
theorem log_processing_true_of_insert_ok_witness :
    (AuditLogger.log_processing ⟨false, []⟩ "RPT-20260101120000-AAAAAAAA" "aspirin"
      "severe rash" {} {} ⟨true, 1, 1, 1, [], "", "CRITICAL"⟩ 12
      (.error "vector backend down")).1 = true :=
  AuditLogger.log_processing_true_of_insert_ok ⟨false, []⟩ _ _ _ _ _ _ _ _ _ rfl

/-- Concrete ranked backend candidates for the C8 witness: the second entry carries
the excluded report id. -/
def hitsC8 : List VectorService.QueryHit :=
  [{ report_id := "RPT-A", drugname := "warfarin", risk_level := "HIGH",
     ml_probability := 0.9, timestamp := "2026-01-01T00:00:00", symptoms := ["nausea"],
     distance := 0.1, document := "Drug: warfarin" },
   { report_id := "RPT-B", drugname := "warfarin", risk_level := "CRITICAL",
     ml_probability := 0.95, timestamp := "2026-01-02T00:00:00", symptoms := [],
     distance := 0.2, document := "Drug: warfarin" }]

/-- C8 witness: excluding "RPT-B" keeps it out of the results even though the backend
ranked it as a candidate. -/
theorem get_similar_excludes_current_report_witness :
    ¬ ("RPT-B" ∈ (VectorService.get_similar_serious_events_vector (.ok hitsC8)
        ["nausea"] "RPT-B" 5).map (fun ev => ev.report_id)) := by
  intro hmem
  rcases List.mem_map.mp hmem with ⟨ev, hev, heq⟩
  refine VectorService.get_similar_excludes_current_report (.ok hitsC8) ["nausea"]
    "RPT-B" 5 ?_ ev hev heq
  intro hres hEq
  injection hEq with hEq2
  subst hEq2
  decide

/-- C9 witness: the text "patient admitted to hospital" contains the override keyword
"hospital", so the loaded classifier returns the forced Serious prediction. -/
theorem predict_single_rule_override_witness :
    Classifier.predict_single ⟨some ⟨fun _ => 0, fun _ => 0⟩⟩
        "patient admitted to hospital".data =
      .ok { prediction := "Serious", serious_probability := 1,
            non_serious_probability := 0, confidence := 1,
            reason := "Rule-based override: high-risk keyword detected" } :=
  Classifier.predict_single_rule_override ⟨fun _ => 0, fun _ => 0⟩ _ "hospital".data
    (by decide) (by decide)
